import Mathlib

/-!
Shallow embedding of the convective profile engine of the MeteoBot
repository (`calcola_SBCAPE.py`; the same functions are duplicated in
`meteo.py` with identical bodies).

Modelling conventions:
* machine floats are modelled by real numbers, so every algebraic
  identity below is exact where the Python code is subject to rounding;
* numpy arrays indexed by `i` are modelled as functions `ℕ → ℝ`
  together with an explicit length `n`, and Python lists as `List ℝ`;
* Python's `None` becomes `Option`;
* the severity scorer works on the already-rounded result record, whose
  numbers are decimal, so it is modelled over `ℚ` to keep it decidable;
* `round(x, k)` (Python, round-half-even on binary floats) is modelled
  with Mathlib's `round` (round-half-up); no theorem below depends on
  the tie-breaking behaviour.
-/

namespace MeteoBot

noncomputable section

/-! ### Physical constants (calcola_SBCAPE.py lines 27-33) -/

def Rd : ℝ := 287.05

def Rv : ℝ := 461.5

def Cp : ℝ := 1005.0

def Lv : ℝ := 2.5e6

def g : ℝ := 9.80665

def epsilon : ℝ := 0.622

/-! ### ThermoKernel (calcola_SBCAPE.py lines 186-217) -/

/-- `vapor_pressure(T_celsius)` — Bolton's saturation vapor pressure (hPa). -/
def vapor_pressure (T_celsius : ℝ) : ℝ :=
  6.112 * Real.exp (17.67 * T_celsius / (T_celsius + 243.5))

/-- `mixing_ratio(e, p)` — mixing ratio (kg/kg) from vapor pressure and total
pressure.  The Python body is the bare expression `epsilon * e / (p - e)`:
there is no guard and no error path. -/
def mixing_ratio (e p : ℝ) : ℝ := epsilon * e / (p - e)

/-- `virtual_temperature(T_kelvin, q)`. -/
def virtual_temperature (T_kelvin q : ℝ) : ℝ :=
  T_kelvin * (1 + q / epsilon) / (1 + q)

/-- `dewpoint_to_mixing_ratio(Td_celsius, p_hPa)`. -/
def dewpoint_to_mixing_ratio (Td_celsius p_hPa : ℝ) : ℝ :=
  mixing_ratio (vapor_pressure Td_celsius) p_hPa

/-- `lcl_pressure(T_kelvin, Td_kelvin, p_hPa)` — Bolton's LCL approximation. -/
def lcl_pressure (T_kelvin Td_kelvin p_hPa : ℝ) : ℝ :=
  let Tl := 1 / (1 / (Td_kelvin - 56) + Real.log (T_kelvin / Td_kelvin) / 800) + 56
  let theta := T_kelvin * (1000 / p_hPa) ^ (Rd / Cp)
  1000 * (Tl / theta) ^ (Cp / Rd)

/-- `moist_adiabatic_lapse_rate(T_kelvin, p_hPa)`. -/
def moist_adiabatic_lapse_rate (T_kelvin p_hPa : ℝ) : ℝ :=
  let es := vapor_pressure (T_kelvin - 273.15)
  let ws := mixing_ratio es p_hPa
  (Rd * T_kelvin / (Cp * p_hPa)) *
    ((1 + Lv * ws / (Rd * T_kelvin)) /
      (1 + epsilon * Lv * Lv * ws / (Cp * Rd * T_kelvin * T_kelvin)))

/-! ### ParcelLifter (calcola_SBCAPE.py lines 219-270) -/

/-- `np.linspace(a, b, n)`. -/
def linspace (a b : ℝ) (n : ℕ) : List ℝ :=
  (List.range n).map (fun k => a + (k : ℝ) * ((b - a) / ((n : ℝ) - 1)))

/-- The inner forward-Euler loops of `lift_parcel`: starting from
temperature `T`, steps across consecutive pressures of the list using the
moist adiabatic lapse rate (`for j in range(1, n_steps)`). -/
def eulerSteps : ℝ → List ℝ → ℝ
  | T, [] => T
  | T, [_] => T
  | T, p1 :: p2 :: rest =>
      eulerSteps (T + moist_adiabatic_lapse_rate T p1 * (p2 - p1)) (p2 :: rest)

/-- One iteration of the `for i in range(1, len(p_levels_hPa))` loop of
`lift_parcel`: from the parcel temperature at the previous level
(`T_prev`, at pressure `p_lower`) to the temperature at `p_upper`. -/
def parcelStep (p_lcl T_prev p_lower p_upper : ℝ) : ℝ :=
  if p_lower ≥ p_lcl ∧ p_upper ≥ p_lcl then
    T_prev * (p_upper / p_lower) ^ (Rd / Cp)
  else if p_lower ≥ p_lcl ∧ p_upper < p_lcl then
    eulerSteps (T_prev * (p_lcl / p_lower) ^ (Rd / Cp)) (linspace p_lcl p_upper 10)
  else
    eulerSteps T_prev (linspace p_lower p_upper 5)

/-- The LCL computation at the top of `lift_parcel` (lines 229-238). -/
def liftParcelLcl (T_start_K p_start_hPa q_start : ℝ) : ℝ :=
  let es_start := vapor_pressure (T_start_K - 273.15)
  let e_start := min (q_start * p_start_hPa / (epsilon + q_start)) es_start
  if 0 < e_start then
    let Td_start := 243.5 * Real.log (e_start / 6.112) /
      (17.67 - Real.log (e_start / 6.112))
    lcl_pressure T_start_K (Td_start + 273.15) p_start_hPa
  else
    p_start_hPa / 2

/-- The trace part of `lift_parcel`'s main loop: given the parcel
temperature `T` at the previous pressure `pPrev`, produce the parcel
temperatures at the remaining levels. -/
def traceFrom (p_lcl : ℝ) : ℝ → ℝ → List ℝ → List ℝ
  | _, _, [] => []
  | T, pPrev, p :: rest =>
      let T2 := parcelStep p_lcl T pPrev p
      T2 :: traceFrom p_lcl T2 p rest

/-- `lift_parcel(T_start_K, p_start_hPa, q_start, p_levels_hPa)`.
The source allocates `np.zeros(len(p_levels_hPa))`, stores `T_start` at
index 0 and fills the rest level by level; it presupposes a non-empty
level list (`T_parcel[0] = T_start_K`), which every caller satisfies. -/
def lift_parcel (T_start_K p_start_hPa q_start : ℝ) (p_levels_hPa : List ℝ) :
    List ℝ × ℝ :=
  let p_lcl := liftParcelLcl T_start_K p_start_hPa q_start
  match p_levels_hPa with
  | [] => ([], p_lcl)
  | p0 :: rest => (T_start_K :: traceFrom p_lcl T_start_K p0 rest, p_lcl)

/-! ### BuoyancyIntegrator (calcola_SBCAPE.py lines 272-358) -/

/-- Environment virtual temperature at grid level `i` (loop body,
lines 283-287). -/
def tvEnvAt (p_env T_env RH_env : ℕ → ℝ) (i : ℕ) : ℝ :=
  virtual_temperature (T_env i)
    (mixing_ratio (vapor_pressure (T_env i - 273.15) * RH_env i) (p_env i))

/-- Parcel virtual temperature at grid level `i`: saturated at or above the
LCL, surface moisture below it (lines 289-295). -/
def tvParcelAt (T_parcel p_env : ℕ → ℝ) (q_parcel_surface p_lcl : ℝ) (i : ℕ) : ℝ :=
  if p_env i ≤ p_lcl then
    virtual_temperature (T_parcel i)
      (mixing_ratio (vapor_pressure (T_parcel i - 273.15)) (p_env i))
  else
    virtual_temperature (T_parcel i) q_parcel_surface

/-- `buoyancy = Tv_parcel - Tv_env` (line 298). -/
def buoyancyAt (T_parcel p_env T_env RH_env : ℕ → ℝ)
    (q_parcel_surface p_lcl : ℝ) (i : ℕ) : ℝ :=
  tvParcelAt T_parcel p_env q_parcel_surface p_lcl i - tvEnvAt p_env T_env RH_env i

/-- `lcl_idx`: first grid index whose pressure is at or below the LCL;
defaults to 0 when no such level exists (lines 302-306). -/
def lclIdx (p_env : ℕ → ℝ) (p_lcl : ℝ) (n : ℕ) : ℕ :=
  ((List.range n).find? (fun i => decide (p_env i ≤ p_lcl))).getD 0

/-- The LFC search (lines 308-312): first index `i` in
`range(start, n)` where buoyancy becomes positive after being
non-positive at `i - 1`. -/
def lfcSearch (buoy : ℕ → ℝ) (start n : ℕ) : Option ℕ :=
  (List.range' start (n - start)).find?
    (fun i => decide (0 < buoy i ∧ buoy (i - 1) ≤ 0))

/-- The EL search (lines 315-322): first index above the LFC with negative
buoyancy, defaulting to the topmost level `n - 1`. -/
def elSearch (buoy : ℕ → ℝ) (lfc n : ℕ) : ℕ :=
  ((List.range' (lfc + 1) (n - (lfc + 1))).find?
    (fun i => decide (buoy i < 0))).getD (n - 1)

/-- CIN integral, `for i in range(1, lfc_idx)` (lines 329-337). -/
def cinSum (buoy tvE p : ℕ → ℝ) (lfc : ℕ) : ℝ :=
  ((List.range' 1 (lfc - 1)).map (fun i =>
    if buoy i < 0 then
      g * (((buoy i + buoy (i - 1)) / 2) / ((tvE i + tvE (i - 1)) / 2)) *
        ((Rd * ((tvE i + tvE (i - 1)) / 2) / g) * Real.log (p (i - 1) / p i))
    else 0)).sum

/-- CAPE integral, `for i in range(lfc_idx + 1, el_idx + 1)`
(lines 339-348); the inner positivity test on the averaged buoyancy is the
second conjunct. -/
def capeSum (buoy tvE p : ℕ → ℝ) (lfc el : ℕ) : ℝ :=
  ((List.range' (lfc + 1) (el - lfc)).map (fun i =>
    if (0 < buoy i ∨ 0 < buoy (i - 1)) ∧ 0 < (buoy i + buoy (i - 1)) / 2 then
      g * (((buoy i + buoy (i - 1)) / 2) / ((tvE i + tvE (i - 1)) / 2)) *
        ((Rd * ((tvE i + tvE (i - 1)) / 2) / g) * Real.log (p (i - 1) / p i))
    else 0)).sum

/-- The dictionary returned by `calcola_cape_from_profile`
(lines 350-358), without the raw buoyancy array. -/
structure CapeResult where
  sbcape : ℝ
  cin : ℝ
  lfc_idx : Option ℕ
  el_idx : Option ℕ
  lfc_pressure : Option ℝ
  el_pressure : Option ℝ

/-- `calcola_cape_from_profile(T_parcel, p_env, T_env, RH_env,
q_parcel_surface, p_lcl)` for a grid of `n` levels.  `cape` and `cin` are
initialised to 0 and only accumulated when an LFC was found, exactly as in
the source. -/
def calcola_cape_from_profile (n : ℕ) (T_parcel p_env T_env RH_env : ℕ → ℝ)
    (q_parcel_surface p_lcl : ℝ) : CapeResult :=
  let buoy := buoyancyAt T_parcel p_env T_env RH_env q_parcel_surface p_lcl
  let tvE := tvEnvAt p_env T_env RH_env
  match lfcSearch buoy (max 1 (lclIdx p_env p_lcl n)) n with
  | none => ⟨0, 0, none, none, none, none⟩
  | some lfc =>
      let el := elSearch buoy lfc n
      ⟨capeSum buoy tvE p_env lfc el, cinSum buoy tvE p_env lfc,
        some lfc, some el, some (p_env lfc), some (p_env el)⟩

/-! ### ProfileBuilder (calcola_SBCAPE.py lines 530-565)

The vertical profile is assembled from the surface observation plus the
standard pressure levels; a forecast level is kept only when its pressure
is at most the surface pressure and its temperature sample is present
(`hourly[key_temp][current_hour_idx] is not None` and the surrounding
presence checks, folded into an `Option` input here).  Missing humidity
is replaced by the level-dependent estimate. -/

def pressureLevels : List ℝ :=
  [1000, 950, 925, 900, 850, 800, 750, 700, 650, 600, 550, 500]

/-- `RH_val = 0.5 if p_level > 500 else 0.3` (line 556). -/
def rhDefault (p_level : ℝ) : ℝ := if p_level > 500 then 0.5 else 0.3

/-- The forecast levels kept by the assembly loop (lines 542-561), as
`(pressure, temperature K, relative humidity fraction)` triples. -/
def levelEntries (p_surface : ℝ) (temp rh : ℝ → Option ℝ) : List (ℝ × ℝ × ℝ) :=
  pressureLevels.filterMap (fun pl =>
    if pl ≤ p_surface then
      match temp pl with
      | some t =>
          some (pl, t + 273.15,
            match rh pl with
            | some r => r / 100
            | none => rhDefault pl)
      | none => none
    else none)

/-- Profile assembly with the `len(p_env) < 3` guard (lines 536-565):
the surface level is prepended and `None` is returned (the
"profilo verticale insufficiente" failure) when fewer than 3 levels
result. -/
def assembleProfile (p_surface T_surface_K RH_surface : ℝ)
    (temp rh : ℝ → Option ℝ) : Option (List (ℝ × ℝ × ℝ)) :=
  let levels := (p_surface, T_surface_K, RH_surface) :: levelEntries p_surface temp rh
  if levels.length < 3 then none else some levels

/-- Modelled from the spec: the number of usable levels in the sense of
claim C5 — the surface level plus every forecast level with a present
temperature and pressure at most the surface pressure. -/
def usableLevelCount (p_surface : ℝ) (temp : ℝ → Option ℝ) : ℕ :=
  1 + (pressureLevels.filter
    (fun pl => (temp pl).isSome && decide (pl ≤ p_surface))).length

/-! ### The `mixing_ratio` contract of the spec (for claim C7)

`mixing_ratio` in the source is the bare formula with no error path, so
its call always returns normally; `mixingRatioCode` makes that explicit.
`mixingRatioSpec` is the contract claimed by the spec. -/

/-- The code's `mixing_ratio` wrapped in `Option`: the Python function
body has no guard and no raise, so it returns a value for every input on
which it is called (numpy float division does not raise). -/
def mixingRatioCode (e p : ℝ) : Option ℝ := some (mixing_ratio e p)

/-- Modelled from the spec: `ε·e/(p−e)`, failing with `DomainError`
(here `none`) when `p ≤ e`. -/
def mixingRatioSpec (e p : ℝ) : Option ℝ :=
  if p ≤ e then none else some (epsilon * e / (p - e))

end

/-! ### SeverityScorer (calcola_SBCAPE.py lines 673-744, duplicated at
meteo.py lines 1088-1134)

The scorer reads the already-rounded result record, so it is modelled
over `ℚ`.  Absent dictionary keys (`results.get(key, 0)`) are `none`;
Python float truthiness (`if mucape`, `if shear`) is the `≠ 0` test on
the defaulted value.  The Italian warning strings and the formatted
reason strings are modelled by constructors carrying the interpolated
number. -/

/-- The fields of the result dictionary read by `calcola_severe_score`,
plus `lifted_index`, which the claimed input supplies but the scorer
never reads. -/
structure ScoreInput where
  sbcape : Option ℚ
  mucape : Option ℚ
  cin : Option ℚ
  lifted_index : Option ℚ
  bulk_shear : Option ℚ
deriving DecidableEq

/-- The three warning strings of lines 731-738, highest tier first. -/
inductive SevereLevel
  | allertaMassima
  | allertaTemporaliSeveri
  | avvisoTemporaliForti
deriving DecidableEq

/-- The `reasons` entries (f-strings carrying the formatted number). -/
inductive SevereReason
  | capeEstremo (v : ℚ)
  | capeMoltoForte (v : ℚ)
  | capeForte (v : ℚ)
  | capeModerato (v : ℚ)
  | capDeboleAssente
  | capModerato
  | shearElevato (v : ℚ)
  | shearModerato (v : ℚ)
  | rafficheForti (v : ℚ)
  | rafficheModerate (v : ℚ)
deriving DecidableEq

/-- The dictionary returned by `calcola_severe_score`. -/
structure SevereScore where
  score : ℕ
  level : Option SevereLevel
  reasons : List SevereReason
deriving DecidableEq

/-- `calcola_severe_score(results, raffica_kmh)`. -/
def calcola_severe_score (results : ScoreInput) (raffica_kmh : ℚ) : SevereScore :=
  let sbcape := results.sbcape.getD 0
  let mucape := results.mucape.getD 0
  let cin := |results.cin.getD 0|
  let shear := results.bulk_shear.getD 0
  let max_cape := if mucape ≠ 0 then max sbcape mucape else sbcape
  let capePart : ℕ × List SevereReason :=
    if max_cape > 3000 then (4, [.capeEstremo max_cape])
    else if max_cape > 2500 then (3, [.capeMoltoForte max_cape])
    else if max_cape > 1500 then (2, [.capeForte max_cape])
    else if max_cape > 1000 then (1, [.capeModerato max_cape])
    else (0, [])
  let cinPart : ℕ × List SevereReason :=
    if cin < 50 then (2, [.capDeboleAssente])
    else if cin < 100 then (1, [.capModerato])
    else (0, [])
  let shearPart : ℕ × List SevereReason :=
    if shear ≠ 0 ∧ shear > 15 then (3, [.shearElevato shear])
    else if shear ≠ 0 ∧ shear > 10 then (2, [.shearModerato shear])
    else (0, [])
  let gustPart : ℕ × List SevereReason :=
    if raffica_kmh > 60 then (2, [.rafficheForti raffica_kmh])
    else if raffica_kmh > 40 then (1, [.rafficheModerate raffica_kmh])
    else (0, [])
  let score := capePart.1 + cinPart.1 + shearPart.1 + gustPart.1
  let level : Option SevereLevel :=
    if score ≥ 7 then some .allertaMassima
    else if score ≥ 5 then some .allertaTemporaliSeveri
    else if score ≥ 3 then some .avvisoTemporaliForti
    else none
  ⟨score, level, capePart.2 ++ cinPart.2 ++ shearPart.2 ++ gustPart.2⟩

noncomputable section

/-! ### Result assembly (calcola_SBCAPE.py lines 631-656)

The record built by `calcola_sbcape_advanced` from the computed
sub-results.  The network fetch, the hour-index selection and the scipy
interpolation are external collaborators per the specification; the
wall-clock reading that the function stores in the record
(`datetime.now().isoformat()`) is made an explicit `now` argument. -/

/-- Python `round(float(x), k)` as used in the record assembly. -/
def roundTo (k : ℕ) (x : ℝ) : ℝ := (round (x * 10 ^ k) : ℤ) / 10 ^ k

/-- `round(float(v), 1) if v else None`: Python truthiness makes both
`None` and `0.0` fall to `None`. -/
def truthyRound1 (o : Option ℝ) : Option ℝ :=
  match o with
  | none => none
  | some x => if x = 0 then none else some (roundTo 1 x)

/-- The numeric and timestamp fields of the result record of
`calcola_sbcape_advanced` (lines 631-656). -/
structure ConvectiveResult where
  sbcape : ℝ
  mucape : Option ℝ
  mu_level : Option ℝ
  cin : ℝ
  lifted_index : ℝ
  lcl_pressure : ℝ
  lfc_pressure : Option ℝ
  el_pressure : Option ℝ
  bulk_shear : Option ℝ
  timestamp : String

/-- The record assembly: `result_mu` carries the most-unstable result
and its start level when the search found one, `shear` the bulk-shear
proxy, and `now` the value of `datetime.now().isoformat()` read inside
the function. -/
def assembleResults (result_sb : CapeResult) (result_mu : Option (CapeResult × ℝ))
    (li p_lcl : ℝ) (shear : Option ℝ) (now : String) : ConvectiveResult :=
  { sbcape := roundTo 2 (max 0 result_sb.sbcape)
    mucape := result_mu.map (fun r => roundTo 2 (max 0 r.1.sbcape))
    mu_level := result_mu.map (fun r => roundTo 1 r.2)
    cin := roundTo 2 result_sb.cin
    lifted_index := roundTo 2 li
    lcl_pressure := roundTo 1 p_lcl
    lfc_pressure := truthyRound1 result_sb.lfc_pressure
    el_pressure := truthyRound1 result_sb.el_pressure
    bulk_shear := shear.map (roundTo 1)
    timestamp := now }

end

/-! ## Theorems -/

/-! ### Claim C2 — severity scorer at the reference input -/

/-- Claim C2 (counterexample): at the claimed input — max(SBCAPE, MUCAPE)
= 3200 J/kg, cin = −40 J/kg, bulk shear = 18 m/s, lifted index = −7, no
gust — the scorer returns a score strictly below 10, contradicting the
claimed `score ≥ 10`. -/
theorem claim2_counterexample :
    (calcola_severe_score ⟨some 3200, some 3200, some (-40), some (-7), some 18⟩ 0).score < 10 := by
  decide

/-- Claim C2 (amended): at that input the scorer returns score = 9
(CAPE > 3000 gives +4, |CIN| = 40 < 50 gives +2, shear 18 > 15 gives +3;
the lifted index is never read by the scorer and the gust is 0), and
since 9 ≥ 7 it attaches the highest-tier (severe) warning label. -/
theorem claim2_severe_score_value :
    (calcola_severe_score ⟨some 3200, some 3200, some (-40), some (-7), some 18⟩ 0).score = 9 ∧
    (calcola_severe_score ⟨some 3200, some 3200, some (-40), some (-7), some 18⟩ 0).level =
      some SevereLevel.allertaMassima := by
  exact ⟨by decide, by decide⟩

/-! ### Claim C7 — `mixing_ratio` has no error path -/

/-- Claim C7 (counterexample): at `e = 2, p = 1` (so `p ≤ e`) the code does
not fail with a `DomainError`: it returns a value, while the spec's
contract demands failure. -/
theorem claim7_counterexample : mixingRatioCode 2 1 ≠ mixingRatioSpec 2 1 := by
  have h : mixingRatioSpec 2 1 = none := by
    unfold mixingRatioSpec
    rw [if_pos (by norm_num : (1 : ℝ) ≤ 2)]
  rw [h]
  simp [mixingRatioCode]

/-- Claim C7 (amended): `mixing_ratio(e, p)` returns `ε·e/(p−e)` for every
input — in particular it agrees with the spec's guarded formula whenever
`p > e` — and for `p ≤ e` it does not fail with `DomainError`: no guard
exists, and for `0 < e`, `p < e` the returned value is negative. -/
theorem claim7_mixing_ratio_total (e p : ℝ) :
    mixingRatioCode e p = some (epsilon * e / (p - e)) ∧
    (e < p → mixingRatioCode e p = mixingRatioSpec e p) ∧
    (0 < e → p < e → mixing_ratio e p < 0) := by
  refine ⟨rfl, fun h => ?_, fun he hpe => ?_⟩
  · unfold mixingRatioCode mixingRatioSpec mixing_ratio
    rw [if_neg (not_le.mpr h)]
  · unfold mixing_ratio epsilon
    apply div_neg_of_pos_of_neg
    · linarith
    · linarith

/-- Claim C7 witness: the amended statement instantiated at `e = 1, p = 2`
(agreement with the guarded spec) and at `e = 3, p = 1` (negative value,
no failure). -/
theorem claim7_witness :
    mixingRatioCode 1 2 = mixingRatioSpec 1 2 ∧ mixing_ratio 3 1 < 0 :=
  ⟨(claim7_mixing_ratio_total 1 2).2.1 (by norm_num),
   (claim7_mixing_ratio_total 3 1).2.2 (by norm_num) (by norm_num)⟩

/-! ### Claim C9 — the result record depends on the wall clock -/

/-- Claim C9 (counterexample): two invocations of the record assembly with
identical sub-results (the inputs derived from the surface observation and
the forecast levels) but different wall-clock readings produce different
`ConvectiveResult` records, because `calcola_sbcape_advanced` stores
`datetime.now().isoformat()` in the record. -/
theorem claim9_counterexample :
    assembleResults ⟨0, 0, none, none, none, none⟩ none 0 0 none "t0" ≠
      assembleResults ⟨0, 0, none, none, none, none⟩ none 0 0 none "t1" := by
  intro h
  have ht : ("t0" : String) = "t1" := congrArg ConvectiveResult.timestamp h
  exact absurd ht (by decide)

/-- Claim C9 (amended): the record assembly is a deterministic function of
its inputs together with the clock reading: every numeric field depends
only on the computed sub-results — two invocations with the same
sub-results agree on all of them — while the `timestamp` field equals the
supplied clock value, so records from different clock readings differ
exactly there. -/
theorem claim9_clock_dependence (result_sb : CapeResult)
    (result_mu : Option (CapeResult × ℝ)) (li p_lcl : ℝ) (shear : Option ℝ)
    (now1 now2 : String) :
    (assembleResults result_sb result_mu li p_lcl shear now1).timestamp = now1 ∧
    (assembleResults result_sb result_mu li p_lcl shear now1).sbcape =
      (assembleResults result_sb result_mu li p_lcl shear now2).sbcape ∧
    (assembleResults result_sb result_mu li p_lcl shear now1).mucape =
      (assembleResults result_sb result_mu li p_lcl shear now2).mucape ∧
    (assembleResults result_sb result_mu li p_lcl shear now1).mu_level =
      (assembleResults result_sb result_mu li p_lcl shear now2).mu_level ∧
    (assembleResults result_sb result_mu li p_lcl shear now1).cin =
      (assembleResults result_sb result_mu li p_lcl shear now2).cin ∧
    (assembleResults result_sb result_mu li p_lcl shear now1).lifted_index =
      (assembleResults result_sb result_mu li p_lcl shear now2).lifted_index ∧
    (assembleResults result_sb result_mu li p_lcl shear now1).lcl_pressure =
      (assembleResults result_sb result_mu li p_lcl shear now2).lcl_pressure ∧
    (assembleResults result_sb result_mu li p_lcl shear now1).lfc_pressure =
      (assembleResults result_sb result_mu li p_lcl shear now2).lfc_pressure ∧
    (assembleResults result_sb result_mu li p_lcl shear now1).el_pressure =
      (assembleResults result_sb result_mu li p_lcl shear now2).el_pressure ∧
    (assembleResults result_sb result_mu li p_lcl shear now1).bulk_shear =
      (assembleResults result_sb result_mu li p_lcl shear now2).bulk_shear :=
  ⟨rfl, rfl, rfl, rfl, rfl, rfl, rfl, rfl, rfl, rfl⟩

/-! ### Claim C5 — the fewer-than-3-usable-levels guard -/

/-- Helper: `filterMap` and `filter` produce lists of the same length when
the option-valued map is defined exactly on the filtered elements. -/
theorem length_filterMap_eq_length_filter {α β : Type} (f : α → Option β)
    (q : α → Bool) (h : ∀ a, (f a).isSome = q a) :
    ∀ l : List α, (l.filterMap f).length = (l.filter q).length := by
  intro l
  induction l with
  | nil => rfl
  | cons a t ih =>
    rw [List.filterMap_cons, List.filter_cons]
    cases hfa : f a with
    | none =>
      have hq : q a = false := by rw [← h a, hfa]; rfl
      simp [hq, ih]
    | some b =>
      have hq : q a = true := by rw [← h a, hfa]; rfl
      simp [hq, ih]

/-- Claim C5: profile assembly returns no result exactly when fewer than 3
usable levels exist — the surface level plus the forecast levels with a
present temperature and pressure at most the surface pressure; with at
least 3 such levels this failure does not occur. -/
theorem claim5_insufficient_profile (p_surface T_surface_K RH_surface : ℝ)
    (temp rh : ℝ → Option ℝ) :
    assembleProfile p_surface T_surface_K RH_surface temp rh = none ↔
      usableLevelCount p_surface temp < 3 := by
  have hlen : (levelEntries p_surface temp rh).length =
      (pressureLevels.filter
        (fun pl => (temp pl).isSome && decide (pl ≤ p_surface))).length := by
    apply length_filterMap_eq_length_filter
    intro a
    by_cases hpa : a ≤ p_surface
    · cases hta : temp a <;> simp [hpa, hta]
    · cases hta : temp a <;> simp [hpa, hta]
  unfold assembleProfile
  simp only [List.length_cons]
  unfold usableLevelCount
  split_ifs with hc
  · exact iff_of_true rfl (by omega)
  · exact iff_of_false (by simp) (by omega)

/-! ### Claims C3 and C10 — profiles on which the LFC search fails -/

/-- Claim C3: on a profile whose environment virtual temperature exceeds
the parcel virtual temperature at every grid level (buoyancy negative
everywhere), `calcola_cape_from_profile` finds no LFC and returns
`cape = 0` and `cin = 0`. -/
theorem claim3_stable_profile_no_lfc (n : ℕ) (T_parcel p_env T_env RH_env : ℕ → ℝ)
    (q_parcel_surface p_lcl : ℝ)
    (h : ∀ i, i < n → tvParcelAt T_parcel p_env q_parcel_surface p_lcl i <
      tvEnvAt p_env T_env RH_env i) :
    (calcola_cape_from_profile n T_parcel p_env T_env RH_env q_parcel_surface p_lcl).lfc_idx
        = none ∧
    (calcola_cape_from_profile n T_parcel p_env T_env RH_env q_parcel_surface p_lcl).lfc_pressure
        = none ∧
    (calcola_cape_from_profile n T_parcel p_env T_env RH_env q_parcel_surface p_lcl).sbcape = 0 ∧
    (calcola_cape_from_profile n T_parcel p_env T_env RH_env q_parcel_surface p_lcl).cin = 0 := by
  have hnone : lfcSearch (buoyancyAt T_parcel p_env T_env RH_env q_parcel_surface p_lcl)
      (max 1 (lclIdx p_env p_lcl n)) n = none := by
    unfold lfcSearch
    rw [List.find?_eq_none]
    intro i hi
    have hmem := List.mem_range'_1.mp hi
    have hin : i < n := by omega
    simp only [decide_eq_true_eq, not_and, not_le]
    intro hpos
    exfalso
    have hb : buoyancyAt T_parcel p_env T_env RH_env q_parcel_surface p_lcl i < 0 := by
      unfold buoyancyAt
      linarith [h i hin]
    linarith
  simp only [calcola_cape_from_profile, hnone]
  exact ⟨trivial, trivial, trivial, trivial⟩

/-- Claim C3 witness: a concrete 2-level profile with dry environment
(`RH = 0`), dry parcel (`q = 0`), the LCL below both grid levels, and the
environment warmer than the parcel at both levels. -/
theorem claim3_witness :
    (calcola_cape_from_profile 2 (fun i => if i = 0 then (290 : ℝ) else 280)
      (fun i => if i = 0 then (1000 : ℝ) else 900)
      (fun i => if i = 0 then (300 : ℝ) else 295) (fun _ => 0) 0 100).lfc_idx = none ∧
    (calcola_cape_from_profile 2 (fun i => if i = 0 then (290 : ℝ) else 280)
      (fun i => if i = 0 then (1000 : ℝ) else 900)
      (fun i => if i = 0 then (300 : ℝ) else 295) (fun _ => 0) 0 100).lfc_pressure = none ∧
    (calcola_cape_from_profile 2 (fun i => if i = 0 then (290 : ℝ) else 280)
      (fun i => if i = 0 then (1000 : ℝ) else 900)
      (fun i => if i = 0 then (300 : ℝ) else 295) (fun _ => 0) 0 100).sbcape = 0 ∧
    (calcola_cape_from_profile 2 (fun i => if i = 0 then (290 : ℝ) else 280)
      (fun i => if i = 0 then (1000 : ℝ) else 900)
      (fun i => if i = 0 then (300 : ℝ) else 295) (fun _ => 0) 0 100).cin = 0 := by
  apply claim3_stable_profile_no_lfc
  intro i hi
  interval_cases i <;>
    (unfold tvParcelAt tvEnvAt virtual_temperature mixing_ratio epsilon; norm_num)

/-- Claim C10: on a profile whose parcel virtual temperature exceeds the
environment's at every grid level (buoyancy positive everywhere, including
the starting level), the LFC search — which requires a transition from
non-positive buoyancy at the previous level to positive buoyancy — finds
nothing, so `calcola_cape_from_profile` returns `cape = 0`, `cin = 0` and
no LFC pressure, despite the parcel being positively buoyant
everywhere. -/
theorem claim10_all_positive_no_lfc (n : ℕ) (T_parcel p_env T_env RH_env : ℕ → ℝ)
    (q_parcel_surface p_lcl : ℝ)
    (h : ∀ i, i < n → tvEnvAt p_env T_env RH_env i <
      tvParcelAt T_parcel p_env q_parcel_surface p_lcl i) :
    (calcola_cape_from_profile n T_parcel p_env T_env RH_env q_parcel_surface p_lcl).lfc_idx
        = none ∧
    (calcola_cape_from_profile n T_parcel p_env T_env RH_env q_parcel_surface p_lcl).lfc_pressure
        = none ∧
    (calcola_cape_from_profile n T_parcel p_env T_env RH_env q_parcel_surface p_lcl).sbcape = 0 ∧
    (calcola_cape_from_profile n T_parcel p_env T_env RH_env q_parcel_surface p_lcl).cin = 0 := by
  have hnone : lfcSearch (buoyancyAt T_parcel p_env T_env RH_env q_parcel_surface p_lcl)
      (max 1 (lclIdx p_env p_lcl n)) n = none := by
    unfold lfcSearch
    rw [List.find?_eq_none]
    intro i hi
    have hmem := List.mem_range'_1.mp hi
    have h1i : 1 ≤ i := le_trans (le_max_left 1 (lclIdx p_env p_lcl n)) hmem.1
    have hin : i - 1 < n := by omega
    simp only [decide_eq_true_eq, not_and, not_le]
    intro _
    have hb : 0 < buoyancyAt T_parcel p_env T_env RH_env q_parcel_surface p_lcl (i - 1) := by
      unfold buoyancyAt
      linarith [h (i - 1) hin]
    linarith
  simp only [calcola_cape_from_profile, hnone]
  exact ⟨trivial, trivial, trivial, trivial⟩

/-- Claim C10 witness: a concrete 2-level profile with dry environment and
parcel, the LCL below both grid levels, and the parcel warmer than the
environment at both levels. -/
theorem claim10_witness :
    (calcola_cape_from_profile 2 (fun i => if i = 0 then (300 : ℝ) else 295)
      (fun i => if i = 0 then (1000 : ℝ) else 900)
      (fun i => if i = 0 then (290 : ℝ) else 280) (fun _ => 0) 0 100).lfc_idx = none ∧
    (calcola_cape_from_profile 2 (fun i => if i = 0 then (300 : ℝ) else 295)
      (fun i => if i = 0 then (1000 : ℝ) else 900)
      (fun i => if i = 0 then (290 : ℝ) else 280) (fun _ => 0) 0 100).lfc_pressure = none ∧
    (calcola_cape_from_profile 2 (fun i => if i = 0 then (300 : ℝ) else 295)
      (fun i => if i = 0 then (1000 : ℝ) else 900)
      (fun i => if i = 0 then (290 : ℝ) else 280) (fun _ => 0) 0 100).sbcape = 0 ∧
    (calcola_cape_from_profile 2 (fun i => if i = 0 then (300 : ℝ) else 295)
      (fun i => if i = 0 then (1000 : ℝ) else 900)
      (fun i => if i = 0 then (290 : ℝ) else 280) (fun _ => 0) 0 100).cin = 0 := by
  apply claim10_all_positive_no_lfc
  intro i hi
  interval_cases i <;>
    (unfold tvParcelAt tvEnvAt virtual_temperature mixing_ratio epsilon; norm_num)

/-! ### Claim C8 — LCL pressure is monotone in the dewpoint -/

/-- Claim C8: for fixed temperature `T` and pressure `p`, `lcl_pressure` is
strictly decreasing in the dewpoint depression `T − Td`: for dewpoints
`Td1 < Td2 < T` in the physically valid domain (`56 < Td1`, `0 < p`),
`lcl_pressure T Td1 p < lcl_pressure T Td2 p`. -/
theorem claim8_lcl_monotone_dewpoint (T Td1 Td2 p : ℝ) (h56 : 56 < Td1)
    (h12 : Td1 < Td2) (h2T : Td2 < T) (hp : 0 < p) :
    lcl_pressure T Td1 p < lcl_pressure T Td2 p := by
  have hTd1 : 0 < Td1 - 56 := by linarith
  have hT : 0 < T := by linarith
  have hTd1pos : 0 < Td1 := by linarith
  have hTd2pos : 0 < Td2 := by linarith
  simp only [lcl_pressure]
  set D1 : ℝ := 1 / (Td1 - 56) + Real.log (T / Td1) / 800 with hD1
  set D2 : ℝ := 1 / (Td2 - 56) + Real.log (T / Td2) / 800 with hD2
  have hinv : 1 / (Td2 - 56) < 1 / (Td1 - 56) :=
    one_div_lt_one_div_of_lt hTd1 (by linarith)
  have hlog : Real.log (T / Td2) < Real.log (T / Td1) :=
    Real.log_lt_log (div_pos hT hTd2pos) (div_lt_div_of_pos_left hT hTd1pos h12)
  have hlogpos : 0 < Real.log (T / Td2) :=
    Real.log_pos ((one_lt_div hTd2pos).mpr h2T)
  have hD2pos : 0 < D2 := by
    rw [hD2]
    have : 0 < 1 / (Td2 - 56) := one_div_pos.mpr (by linarith)
    linarith
  have hD21 : D2 < D1 := by
    rw [hD1, hD2]
    linarith
  have hD1pos : 0 < D1 := lt_trans hD2pos hD21
  have hTl : 1 / D1 + 56 < 1 / D2 + 56 := by
    have := one_div_lt_one_div_of_lt hD2pos hD21
    linarith
  have hTl1pos : 0 < 1 / D1 + 56 := by
    have := one_div_pos.mpr hD1pos
    linarith
  have hθ : 0 < T * (1000 / p) ^ (Rd / Cp) :=
    mul_pos hT (Real.rpow_pos_of_pos (div_pos (by norm_num) hp) _)
  apply mul_lt_mul_of_pos_left _ (by norm_num : (0 : ℝ) < 1000)
  apply Real.rpow_lt_rpow (div_nonneg hTl1pos.le hθ.le)
    ((div_lt_div_iff_of_pos_right hθ).mpr hTl)
  unfold Cp Rd
  norm_num

/-- Claim C8 witness: concrete dewpoints 280 K and 290 K at `T = 300` K,
`p = 1000` hPa. -/
theorem claim8_witness : lcl_pressure 300 280 1000 < lcl_pressure 300 290 1000 :=
  claim8_lcl_monotone_dewpoint 300 280 290 1000 (by norm_num) (by norm_num)
    (by norm_num) (by norm_num)

/-! ### Claim C4 — LFC pressure vs LCL pressure vs surface pressure -/

/-- Helper: Bolton's LCL pressure never exceeds the starting pressure when
the dewpoint is at most the temperature and both lie in the formula's
domain (`56 < Td`). -/
theorem lcl_pressure_le_start (T Td p : ℝ) (h56 : 56 < Td) (hTdT : Td ≤ T)
    (hp : 0 < p) : lcl_pressure T Td p ≤ p := by
  have hT : 0 < T := by linarith
  have hTd : 0 < Td - 56 := by linarith
  simp only [lcl_pressure]
  set D : ℝ := 1 / (Td - 56) + Real.log (T / Td) / 800 with hD
  have hlognn : 0 ≤ Real.log (T / Td) :=
    Real.log_nonneg ((one_le_div (by linarith)).mpr hTdT)
  have hDpos : 0 < D := by
    rw [hD]
    have := one_div_pos.mpr hTd
    linarith
  have hTl_le : 1 / D + 56 ≤ T := by
    have h1 : 1 / (Td - 56) ≤ D := by rw [hD]; linarith
    have h2 : 1 / D ≤ 1 / (1 / (Td - 56)) :=
      one_div_le_one_div_of_le (one_div_pos.mpr hTd) h1
    rw [one_div_one_div] at h2
    linarith
  have hTlpos : 0 < 1 / D + 56 := by
    have := one_div_pos.mpr hDpos
    linarith
  have hbase : (1 / D + 56) / (T * (1000 / p) ^ (Rd / Cp)) =
      ((1 / D + 56) / T) * (p / 1000) ^ (Rd / Cp) := by
    rw [div_mul_eq_div_div, div_eq_mul_inv ((1 / D + 56) / T)]
    congr 1
    rw [← Real.inv_rpow (by positivity : (0 : ℝ) ≤ 1000 / p), inv_div]
  rw [hbase,
    Real.mul_rpow (div_nonneg hTlpos.le hT.le)
      (Real.rpow_nonneg (div_nonneg hp.le (by norm_num)) _),
    ← Real.rpow_mul (div_nonneg hp.le (by norm_num))]
  have hexp : Rd / Cp * (Cp / Rd) = 1 := by unfold Rd Cp; norm_num
  rw [hexp, Real.rpow_one]
  have hrle : ((1 / D + 56) / T) ^ (Cp / Rd) ≤ 1 :=
    Real.rpow_le_one (div_nonneg hTlpos.le hT.le) ((div_le_one hT).mpr hTl_le)
      (by unfold Cp Rd; norm_num)
  calc 1000 * (((1 / D + 56) / T) ^ (Cp / Rd) * (p / 1000))
      ≤ 1000 * (1 * (p / 1000)) := by
        apply mul_le_mul_of_nonneg_left _ (by norm_num)
        exact mul_le_mul_of_nonneg_right hrle (div_nonneg hp.le (by norm_num))
    _ = p := by ring

/-- Claim C4 (counterexample): when no grid level lies at or below the
LCL, the `lcl_idx` loop defaults to index 0 and the LFC search can succeed
at a level whose pressure exceeds the LCL pressure.  On this 2-level grid
with `p_lcl = 100` hPa an LFC is reported at 900 hPa > 100 hPa,
contradicting `LFC pressure ≤ LCL pressure`. -/
theorem claim4_counterexample :
    (calcola_cape_from_profile 2 (fun i => if i = 0 then (280 : ℝ) else 300)
      (fun i => if i = 0 then (1000 : ℝ) else 900)
      (fun i => if i = 0 then (300 : ℝ) else 280) (fun _ => 0) 0 100).lfc_pressure
      = some 900 ∧ ¬ ((900 : ℝ) ≤ 100) := by
  have hlcl : lclIdx (fun i => if i = 0 then (1000 : ℝ) else 900) 100 2 = 0 := by
    unfold lclIdx
    rw [show List.range 2 = [0, 1] from rfl]
    rw [List.find?_cons_of_neg _ (by simp only [decide_eq_true_eq]; norm_num),
      List.find?_cons_of_neg _ (by simp only [decide_eq_true_eq]; norm_num)]
    rfl
  have hfind : lfcSearch
      (buoyancyAt (fun i => if i = 0 then (280 : ℝ) else 300)
        (fun i => if i = 0 then (1000 : ℝ) else 900)
        (fun i => if i = 0 then (300 : ℝ) else 280) (fun _ => 0) 0 100)
      (max 1 (lclIdx (fun i => if i = 0 then (1000 : ℝ) else 900) 100 2)) 2
      = some 1 := by
    rw [hlcl]
    unfold lfcSearch
    rw [show List.range' (max 1 0) (2 - max 1 0) = [1] from rfl]
    apply List.find?_cons_of_pos
    simp only [decide_eq_true_eq]
    refine ⟨?_, ?_⟩
    · unfold buoyancyAt tvParcelAt tvEnvAt virtual_temperature mixing_ratio epsilon
      norm_num
    · unfold buoyancyAt tvParcelAt tvEnvAt virtual_temperature mixing_ratio epsilon
      norm_num
  constructor
  · simp only [calcola_cape_from_profile, hfind]
    norm_num
  · norm_num

/-- Claim C4 (amended): whenever `calcola_cape_from_profile` reports an
LFC on a strictly pressure-decreasing grid, *and some grid level lies at
or below the LCL* (without that proviso the invariant fails, see the
counterexample), the LFC's pressure is at most the LCL pressure; and the
LCL pressure produced by Bolton's formula is at most the starting
(surface) pressure whenever the dewpoint is at most the temperature in
the formula's domain. -/
theorem claim4_lfc_lcl_invariant (n : ℕ) (T_parcel p_env T_env RH_env : ℕ → ℝ)
    (q_parcel_surface p_lcl : ℝ)
    (hanti : ∀ i j, i < j → j < n → p_env j < p_env i)
    (hex : ∃ j, j < n ∧ p_env j ≤ p_lcl)
    (l : ℕ)
    (hl : (calcola_cape_from_profile n T_parcel p_env T_env RH_env
      q_parcel_surface p_lcl).lfc_idx = some l)
    (T Td p : ℝ) (h56 : 56 < Td) (hTdT : Td ≤ T) (hp : 0 < p) :
    p_env l ≤ p_lcl ∧ lcl_pressure T Td p ≤ p := by
  refine ⟨?_, lcl_pressure_le_start T Td p h56 hTdT hp⟩
  rcases hfind : lfcSearch
      (buoyancyAt T_parcel p_env T_env RH_env q_parcel_surface p_lcl)
      (max 1 (lclIdx p_env p_lcl n)) n with _ | l'
  · simp only [calcola_cape_from_profile, hfind] at hl
    exact absurd hl (by simp)
  · have hll : l' = l := by
      simp only [calcola_cape_from_profile, hfind] at hl
      exact Option.some.inj hl
    subst hll
    have hlclsome : ∃ j0, (List.range n).find?
        (fun i => decide (p_env i ≤ p_lcl)) = some j0 := by
      rcases hex with ⟨j, hj, hjle⟩
      cases hf : (List.range n).find? (fun i => decide (p_env i ≤ p_lcl)) with
      | some j0 => exact ⟨j0, rfl⟩
      | none =>
        exfalso
        rw [List.find?_eq_none] at hf
        refine hf j (List.mem_range.mpr hj) ?_
        simp only [decide_eq_true_eq]
        exact hjle
    rcases hlclsome with ⟨j0, hj0⟩
    have hj0p : p_env j0 ≤ p_lcl := by
      have := List.find?_some hj0
      simpa [decide_eq_true_eq] using this
    have hstart : lclIdx p_env p_lcl n = j0 := by
      unfold lclIdx
      rw [hj0]
      rfl
    have hmem := List.mem_of_find?_eq_some hfind
    rw [hstart] at hmem
    have hbounds := List.mem_range'_1.mp hmem
    have hj0l : j0 ≤ l' := le_trans (le_max_right 1 j0) hbounds.1
    have hln : l' < n := by
      rcases hbounds with ⟨hb1, hb2⟩
      have h1m : 1 ≤ max 1 j0 := le_max_left 1 j0
      omega
    rcases eq_or_lt_of_le hj0l with h | h
    · rw [← h]
      exact hj0p
    · exact le_trans (le_of_lt (hanti j0 l' h hln)) hj0p

/-- Claim C4 witness: the amended invariant at a concrete 2-level grid
(LCL at 950 hPa, level 1 at 900 hPa lies below it, parcel saturated there
at 273.15 K so the saturation vapor pressure evaluates via `exp 0`), and
the concrete Bolton bound at `T = 300`, `Td = 280`, `p = 1000`. -/
theorem claim4_witness :
    ((fun i => if i = 0 then (1000 : ℝ) else 900) 1 ≤ 950) ∧
    lcl_pressure 300 280 1000 ≤ 1000 := by
  have hlcl : lclIdx (fun i => if i = 0 then (1000 : ℝ) else 900) 950 2 = 1 := by
    unfold lclIdx
    rw [show List.range 2 = [0, 1] from rfl]
    rw [List.find?_cons_of_neg _ (by simp only [decide_eq_true_eq]; norm_num),
      List.find?_cons_of_pos _ (by simp only [decide_eq_true_eq]; norm_num)]
    rfl
  have hfind : lfcSearch
      (buoyancyAt (fun i => if i = 0 then (250 : ℝ) else 273.15)
        (fun i => if i = 0 then (1000 : ℝ) else 900)
        (fun i => if i = 0 then (300 : ℝ) else 263) (fun _ => 0) 0 950)
      (max 1 (lclIdx (fun i => if i = 0 then (1000 : ℝ) else 900) 950 2)) 2
      = some 1 := by
    rw [hlcl]
    unfold lfcSearch
    rw [show List.range' (max 1 1) (2 - max 1 1) = [1] from rfl]
    apply List.find?_cons_of_pos
    simp only [decide_eq_true_eq]
    refine ⟨?_, ?_⟩
    · unfold buoyancyAt tvParcelAt tvEnvAt virtual_temperature mixing_ratio
        vapor_pressure epsilon
      norm_num [Real.exp_zero]
    · unfold buoyancyAt tvParcelAt tvEnvAt virtual_temperature mixing_ratio epsilon
      norm_num
  exact claim4_lfc_lcl_invariant 2
    (fun i => if i = 0 then (250 : ℝ) else 273.15)
    (fun i => if i = 0 then (1000 : ℝ) else 900)
    (fun i => if i = 0 then (300 : ℝ) else 263) (fun _ => 0) 0 950
    (by
      intro i j hij hj
      interval_cases j
      · exact absurd hij (Nat.not_lt_zero i)
      · interval_cases i
        norm_num)
    ⟨1, by norm_num, by norm_num⟩ 1
    (by simp only [calcola_cape_from_profile, hfind])
    300 280 1000 (by norm_num) (by norm_num) (by norm_num)

/-! ### Claim C6 — dry-adiabatic telescoping below the LCL -/

/-- Helper: with zero starting moisture the actual vapor pressure is 0, so
`lift_parcel` places the LCL at `p_start / 2`. -/
theorem liftParcelLcl_zero (T p : ℝ) : liftParcelLcl T p 0 = p / 2 := by
  unfold liftParcelLcl
  have hes : 0 < vapor_pressure (T - 273.15) := by
    unfold vapor_pressure
    positivity
  simp only [zero_mul, zero_div]
  rw [min_eq_left hes.le, if_neg (lt_irrefl 0)]

/-- Helper: as long as every level up to index `k` (and the previous
pressure) lies at or below the LCL in height (pressure ≥ `p_lcl`), every
step of the parcel trace takes the dry-adiabatic branch, and the per-step
factors telescope to the closed form. -/
theorem traceFrom_dry (p_lcl : ℝ) (ps : List ℝ) :
    ∀ (T pPrev : ℝ) (k : ℕ), k < ps.length → 0 < pPrev → p_lcl ≤ pPrev →
    (∀ j, j ≤ k → j < ps.length → 0 < ps.getD j 0 ∧ p_lcl ≤ ps.getD j 0) →
    (traceFrom p_lcl T pPrev ps).getD k 0 =
      T * (ps.getD k 0 / pPrev) ^ (Rd / Cp) := by
  induction ps with
  | nil =>
    intro T pPrev k hk
    exact absurd hk (by simp)
  | cons p rest ih =>
    intro T pPrev k hk hprev hlclprev hall
    have hp0 : 0 < p ∧ p_lcl ≤ p := by
      have := hall 0 (Nat.zero_le k) (by simp)
      simpa using this
    have hstep : parcelStep p_lcl T pPrev p = T * (p / pPrev) ^ (Rd / Cp) := by
      unfold parcelStep
      rw [if_pos ⟨hlclprev, hp0.2⟩]
    cases k with
    | zero =>
      show parcelStep p_lcl T pPrev p =
        T * ((p :: rest).getD 0 0 / pPrev) ^ (Rd / Cp)
      rw [hstep, List.getD_cons_zero]
    | succ k' =>
      have hk' : k' < rest.length := by simpa using hk
      show (traceFrom p_lcl (parcelStep p_lcl T pPrev p) p rest).getD k' 0 =
        T * ((p :: rest).getD (k' + 1) 0 / pPrev) ^ (Rd / Cp)
      rw [ih (parcelStep p_lcl T pPrev p) p k' hk' hp0.1 hp0.2 (fun j hj hjlen => by
        have := hall (j + 1) (Nat.succ_le_succ hj) (Nat.succ_lt_succ hjlen)
        simpa using this)]
      rw [hstep, List.getD_cons_succ, mul_assoc]
      have hq : 0 < rest.getD k' 0 := by
        have := hall (k' + 1) le_rfl hk
        simpa using this.1
      congr 1
      rw [← Real.mul_rpow (div_nonneg hp0.1.le hprev.le)
        (div_nonneg hq.le hp0.1.le)]
      congr 1
      have hpne : p ≠ 0 := ne_of_gt hp0.1
      have hprevne : pPrev ≠ 0 := ne_of_gt hprev
      field_simp
      ring

/-- Claim C6: lifting a parcel with zero moisture (`q_start = 0`, hence
zero vapor pressure and the LCL placed at `p_start / 2`) along a positive,
pressure-sorted grid starting at `p_start` satisfies the closed dry
adiabat `T(p_k) = T_start · (p_k / p_start) ^ (Rd / Cp)` at every grid
index `k` whose pressure is at least the LCL pressure: the per-step
dry-adiabatic factors telescope exactly. -/
theorem claim6_dry_adiabatic_telescope (T_start p_start : ℝ) (rest : List ℝ)
    (hpos : ∀ q ∈ p_start :: rest, 0 < q)
    (hsort : (p_start :: rest).Sorted (fun a b => b ≤ a))
    (k : ℕ) (hk : k < (p_start :: rest).length)
    (hlcl : p_start / 2 ≤ (p_start :: rest).getD k 0) :
    (lift_parcel T_start p_start 0 (p_start :: rest)).2 = p_start / 2 ∧
    (lift_parcel T_start p_start 0 (p_start :: rest)).1.getD k 0 =
      T_start * ((p_start :: rest).getD k 0 / p_start) ^ (Rd / Cp) := by
  have hlcl2 : liftParcelLcl T_start p_start 0 = p_start / 2 :=
    liftParcelLcl_zero T_start p_start
  have hp0 : 0 < p_start := hpos p_start (by simp)
  have hgetD : ∀ (m : ℕ) (hm : m < (p_start :: rest).length),
      (p_start :: rest).getD m 0 = (p_start :: rest).get ⟨m, hm⟩ :=
    fun m hm => List.getD_eq_get (p_start :: rest) 0 hm
  have hmono : ∀ i j : ℕ, i ≤ j → ∀ hj : j < (p_start :: rest).length,
      (p_start :: rest).getD j 0 ≤ (p_start :: rest).getD i 0 := by
    intro i j hij hj
    have hi : i < (p_start :: rest).length := lt_of_le_of_lt hij hj
    rcases eq_or_lt_of_le hij with rfl | hlt
    · exact le_rfl
    · rw [hgetD i hi, hgetD j hj]
      exact (List.pairwise_iff_get.mp hsort) ⟨i, hi⟩ ⟨j, hj⟩ hlt
  refine ⟨hlcl2, ?_⟩
  cases k with
  | zero =>
    show T_start = T_start * ((p_start :: rest).getD 0 0 / p_start) ^ (Rd / Cp)
    rw [List.getD_cons_zero, div_self (ne_of_gt hp0), Real.one_rpow, mul_one]
  | succ k' =>
    have hk' : k' < rest.length := by simpa using hk
    show (traceFrom (liftParcelLcl T_start p_start 0) T_start p_start rest).getD k' 0 =
      T_start * ((p_start :: rest).getD (k' + 1) 0 / p_start) ^ (Rd / Cp)
    rw [hlcl2]
    rw [traceFrom_dry (p_start / 2) rest T_start p_start k' hk' hp0
      (by linarith) (fun j hj hjlen => by
        have hjcons : j + 1 < (p_start :: rest).length := Nat.succ_lt_succ hjlen
        have hle := hmono (j + 1) (k' + 1) (Nat.succ_le_succ hj) hk
        rw [List.getD_cons_succ, List.getD_cons_succ] at hle
        constructor
        · refine hpos (rest.getD j 0) (List.mem_cons_of_mem p_start ?_)
          rw [List.getD_eq_get rest 0 hjlen]
          exact List.get_mem rest j hjlen
        · have hkk : p_start / 2 ≤ (p_start :: rest).getD (k' + 1) 0 := hlcl
          rw [List.getD_cons_succ] at hkk
          linarith)]
    rw [List.getD_cons_succ]

/-- Claim C6 witness: the dry telescoping on the concrete grid
`[1000, 800]` with `T_start = 300` and zero moisture; the LCL lands at
500 hPa, below both grid levels. -/
theorem claim6_witness :
    (lift_parcel 300 1000 0 [(1000 : ℝ), 800]).2 = 1000 / 2 ∧
    (lift_parcel 300 1000 0 [(1000 : ℝ), 800]).1.getD 1 0 =
      300 * (([(1000 : ℝ), 800].getD 1 0) / 1000) ^ (Rd / Cp) :=
  claim6_dry_adiabatic_telescope 300 1000 [800]
    (by
      intro q hq
      simp only [List.mem_cons, List.not_mem_nil, or_false] at hq
      rcases hq with rfl | rfl <;> norm_num)
    (by
      refine List.sorted_cons.mpr ⟨?_, List.sorted_singleton 800⟩
      intro b hb
      simp only [List.mem_singleton] at hb
      rw [hb]
      norm_num)
    1 (by norm_num)
    (by
      rw [show ([(1000 : ℝ), 800].getD 1 0) = 800 from rfl]
      norm_num)

end MeteoBot
